import Mathlib

/-!
Verification development for a Rust client of a trends web API
(`src/client.rs`, `src/types.rs`). The definitions below are a shallow
embedding of the source: pure data and functions are translated directly;
the HTTP transport is modelled as an oracle mapping a call index and a
request to a response; `serde_json` values are modelled by an explicit
JSON tree whose objects are key-sorted association lists (serde_json's
default `Map` is a `BTreeMap`, i.e. ordered by key); Rust panics are
modelled by `Option.none`.
-/

namespace GoogleTrends

/-- Model of `serde_json::Value`: JSON trees. Numbers are modelled as
integers (the only numbers this client reads or writes are integer codes,
epoch seconds and `u8` data values). Objects are association lists kept
sorted by key, matching serde_json's default `BTreeMap` representation. -/
inductive Json where
  | null : Json
  | bool (b : Bool) : Json
  | num (n : Int) : Json
  | str (s : String) : Json
  | arr (xs : List Json) : Json
  | obj (kvs : List (String × Json)) : Json

/-- First value bound to a key in an association list (serde_json map lookup). -/
def lookupKey : List (String × Json) → String → Option Json
  | [], _ => none
  | (k0, v0) :: rest, k => if k = k0 then some v0 else lookupKey rest k

/-- Lexicographic order on character lists — the order `BTreeMap<String, _>`
keys follow (byte-wise UTF-8 comparison coincides with code-point order). -/
def charListLt : List Char → List Char → Bool
  | [], [] => false
  | [], _ :: _ => true
  | _ :: _, [] => false
  | a :: as, b :: bs =>
    if a < b then true
    else if b < a then false
    else charListLt as bs

/-- String comparison used for the sorted-map model. -/
def strLt (a b : String) : Bool :=
  charListLt a.data b.data

/-- Ordered insert-or-update, modelling `BTreeMap::insert` on a key-sorted
association list. -/
def setKey : List (String × Json) → String → Json → List (String × Json)
  | [], k, v => [(k, v)]
  | (k0, v0) :: rest, k, v =>
    if strLt k k0 then (k, v) :: (k0, v0) :: rest
    else if k = k0 then (k, v) :: rest
    else (k0, v0) :: setKey rest k v

/-- Model of serde_json's `value[k1][k2] = v` assignment chain
(`index_or_insert` at every step): descending into a missing key inserts
`null`, descending into `null` turns it into an object, and descending
into any other non-object value panics (`none`). -/
def Json.setPath : Json → List String → Json → Option Json
  | _, [], v => some v
  | Json.obj kvs, k :: rest, v =>
    match Json.setPath ((lookupKey kvs k).getD Json.null) rest v with
    | some w => some (Json.obj (setKey kvs k w))
    | none => none
  | Json.null, k :: rest, v =>
    match Json.setPath Json.null rest v with
    | some w => some (Json.obj [(k, w)])
    | none => none
  | _, _ :: _, _ => none

/-- Read the value at a key path in a JSON tree. -/
def Json.getPath : Json → List String → Option Json
  | j, [] => some j
  | Json.obj kvs, k :: rest =>
    match lookupKey kvs k with
    | some v => Json.getPath v rest
    | none => none
  | _, _ :: _ => none

/-- UTF-8 byte width of a character (Rust strings are UTF-8). -/
def charSize (c : Char) : Nat :=
  if c.val < 0x80 then 1
  else if c.val < 0x800 then 2
  else if c.val < 0x10000 then 3
  else 4

/-- UTF-8 byte length of a character list. -/
def utf8Len (cs : List Char) : Nat :=
  cs.foldr (fun c n => charSize c + n) 0

/-- Model of the Rust byte slice `&s[n..]`: drops exactly `n` UTF-8 bytes.
Returns `none` (a panic) when `n` exceeds the byte length or the cut falls
inside a multi-byte character — exactly the conditions under which Rust's
unchecked string indexing panics. -/
def byteDrop? : Nat → List Char → Option (List Char)
  | n, [] => if n = 0 then some [] else none
  | n, c :: rest =>
    if n = 0 then some (c :: rest)
    else if charSize c ≤ n then byteDrop? (n - charSize c) rest
    else none

/-- `types.rs`: geographic granularity (`Resolution`). -/
inductive Resolution where
  | Country : Resolution
  | City : Resolution
  | Dma : Resolution

/-- `types.rs` `impl Serialize for Resolution`: the emitted wire string. -/
def Resolution.serialize : Resolution → String
  | Resolution.Country => "COUNTRY"
  | Resolution.City => "CITY"
  | Resolution.Dma => "DMA"

/-- `types.rs`: search property (`Source`); `Search` is the plain web vertical. -/
inductive Source where
  | Search : Source
  | Images : Source
  | News : Source
  | Videos : Source
  | Shopping : Source

/-- `types.rs` `impl Serialize for Source`: the emitted wire string. -/
def Source.serialize : Source → String
  | Source.Search => ""
  | Source.Images => "images"
  | Source.News => "news"
  | Source.Videos => "youtube"
  | Source.Shopping => "froogle"

/-- `types.rs`: topic filter (`Category`), a fixed enumerated set. -/
inductive Category where
  | All | Entertainment | Electronics | Finance | Games | Home | Business
  | Internet | Society | News | Shopping | Law | Sports | Literature
  | RealEstate | Fitness | Health | Vehicles | Hobbies | Pets | Travel
  | Food | Science | Communities | Reference | Education

/-- `types.rs`: the `#[repr(u32)]` discriminants of `Category`, which
`impl Serialize for Category` emits as the numeric wire code. -/
def Category.code : Category → Nat
  | Category.All => 0
  | Category.Entertainment => 3
  | Category.Electronics => 5
  | Category.Finance => 7
  | Category.Games => 8
  | Category.Home => 11
  | Category.Business => 12
  | Category.Internet => 13
  | Category.Society => 14
  | Category.News => 16
  | Category.Shopping => 18
  | Category.Law => 19
  | Category.Sports => 20
  | Category.Literature => 22
  | Category.RealEstate => 29
  | Category.Fitness => 44
  | Category.Health => 45
  | Category.Vehicles => 47
  | Category.Hobbies => 65
  | Category.Pets => 66
  | Category.Travel => 67
  | Category.Food => 71
  | Category.Science => 174
  | Category.Communities => 299
  | Category.Reference => 533
  | Category.Education => 958

/-- `types.rs`: which widget report to fetch (`SearchType`). -/
inductive SearchType where
  | TimeSeries : SearchType
  | Region : SearchType
  | RelatedTopics : SearchType
  | RelatedQueries : SearchType

/-- `client.rs` `ExploreResponse::get_request`: the widget-type identifier
bound to each `SearchType`. -/
def searchId : SearchType → String
  | SearchType.TimeSeries => "TIMESERIES"
  | SearchType.Region => "GEO_MAP"
  | SearchType.RelatedTopics => "RELATED_TOPICS"
  | SearchType.RelatedQueries => "RELATED_QUERIES"

/-- Modelled from the spec: a calendar date, as handed to chrono's
"format as ISO-8601 date" capability (an external collaborator). -/
structure Date where
  year : Nat
  month : Nat
  day : Nat

/-- Modelled from the spec: chrono's zero-padded two-digit field
(`%m` / `%d`) for the in-range values a calendar date can carry. -/
def pad2 (n : Nat) : String :=
  if n < 100 then String.mk [Nat.digitChar (n / 10), Nat.digitChar (n % 10)]
  else Nat.repr n

/-- Modelled from the spec: chrono's zero-padded four-digit year (`%Y`). -/
def pad4 (n : Nat) : String :=
  if n < 10000 then
    String.mk [Nat.digitChar (n / 1000), Nat.digitChar (n / 100 % 10),
      Nat.digitChar (n / 10 % 10), Nat.digitChar (n % 10)]
  else Nat.repr n

/-- Modelled from the spec: chrono's `%Y-%m-%d` date rendering. -/
def Date.fmt (d : Date) : String :=
  pad4 d.year ++ "-" ++ pad2 d.month ++ "-" ++ pad2 d.day

/-- `types.rs` `Timeframe`: an inclusive calendar date range. -/
structure Timeframe where
  start : Date
  stop : Date

/-- `types.rs` `Timeframe::new`. -/
def Timeframe.new (start stop : Date) : Timeframe := ⟨start, stop⟩

/-- `types.rs` `Timeframe::default`: starts at the fixed epoch 2014-01-01
and ends at `Utc::now().date()`; the ambient clock is passed explicitly. -/
def Timeframe.default (today : Date) : Timeframe := ⟨⟨2014, 1, 1⟩, today⟩

/-- `types.rs` `Timeframe::formatted`:
`format!("\x7b\x7d \x7b\x7d", start.format("%Y-%m-%d"), end.format("%Y-%m-%d"))`. -/
def Timeframe.formatted (t : Timeframe) : String :=
  t.start.fmt ++ " " ++ t.stop.fmt

/-- `types.rs` `QueryItem`: one search term of a query. -/
structure QueryItem where
  keyword : String
  geo : Option String
  time : Timeframe

/-- `types.rs` `QueryItem::by_keyword`. -/
def QueryItem.by_keyword (keyword : String) (time : Timeframe) : QueryItem :=
  ⟨keyword, none, time⟩

/-- `types.rs` `QueryItem::by_keyword_with_geo`. -/
def QueryItem.by_keyword_with_geo (keyword region : String) (time : Timeframe) : QueryItem :=
  ⟨keyword, some region, time⟩

/-- `types.rs` `Query`: a comparison request. -/
structure Query where
  comparison_item : List QueryItem
  category : Category
  property : Source

/-- `types.rs` `Query::new`: stores the given item list as-is, with
default category `All` and default property `Search`. -/
def Query.new (items : List QueryItem) : Query :=
  ⟨items, Category.All, Source.Search⟩

/-- `types.rs` `Query::by_keyword`. -/
def Query.by_keyword (keyword : String) (time : Timeframe) : Query :=
  Query.new [QueryItem.by_keyword keyword time]

/-- `types.rs` `Error`: payloads of the external error types
(`serde_json::Error`, `reqwest::Error`) are opaque and dropped. -/
inductive Error where
  | JsonError : Error
  | RequestError : Error
  | UnexpectedResponse (body : String) : Error

/-- An HTTP request as this client observes it: method, URL and headers
(header names are taken to be already lowercased, as `reqwest`'s header
map is case-insensitive). GET requests carry no body. -/
structure HttpRequest where
  method : String
  url : String
  headers : List (String × String)

/-- An HTTP response: status code, headers and body text. Header values
are modelled as strings (the valid-ASCII case of `HeaderValue::to_str`). -/
structure HttpResponse where
  status : Nat
  headers : List (String × String)
  body : String

/-- First header value for a name (`HeaderMap::get`). -/
def headerGet (hs : List (String × String)) (k : String) : Option String :=
  match hs with
  | [] => none
  | (k0, v0) :: rest => if k = k0 then some v0 else headerGet rest k

/-- `HeaderMap::insert`: drops every previous value for the name and
binds the new one. -/
def headerInsert (hs : List (String × String)) (k v : String) : List (String × String) :=
  match hs with
  | [] => [(k, v)]
  | (k0, v0) :: rest =>
    if k0 = k then headerInsert rest k v
    else (k0, v0) :: headerInsert rest k v

/-- Rust `str.split(';').next()`: everything before the first `;`
(the whole string when there is none). -/
def firstSegment (s : String) : String :=
  String.mk (s.toList.takeWhile (fun c => c ≠ ';'))

/-- `client.rs` `TrendsClient::run_with_retry`. The network is an oracle
`exec` from call index and request to response. Returns the logical
result together with the trace of requests actually executed, in order.
Faithful to the source: a fresh copy of the request (same method, URL,
headers) is prepared; on 429 the copy is executed unconditionally, with a
`cookie` header inserted first when the response carries a `set-cookie`
header (only its first `;`-delimited segment); on 200 the response is
returned; anything else is an `UnexpectedResponse` carrying the body. -/
def run_with_retry (exec : Nat → HttpRequest → HttpResponse) (req : HttpRequest) :
    Except Error HttpResponse × List HttpRequest :=
  let req_copy : HttpRequest := ⟨req.method, req.url, req.headers⟩
  let resp := exec 0 req
  if resp.status = 429 then
    let req2 :=
      match headerGet resp.headers "set-cookie" with
      | some cv => { req_copy with headers := headerInsert req_copy.headers "cookie" (firstSegment cv) }
      | none => req_copy
    (Except.ok (exec 1 req2), [req, req2])
  else if resp.status = 200 then
    (Except.ok resp, [req])
  else
    (Except.error (Error.UnexpectedResponse resp.body), [req])

/-- `client.rs` `RequestParameters`: a data-request widget descriptor
(session token, widget-type identifier, opaque JSON request payload). -/
structure RequestParameters where
  token : String
  id : String
  request : Json

/-- `client.rs` `Feature`: one entry of the heterogeneous widget list. -/
inductive Feature where
  | DataRequest (params : RequestParameters) : Feature
  | Other (id : String) : Feature

/-- `client.rs` `ExploreResponse::get_request` on the widget list:
`find_map` of the first `DataRequest` whose id equals the identifier of
the requested search type. -/
def getRequest (widgets : List Feature) (search : SearchType) : Option RequestParameters :=
  widgets.findSome? fun item =>
    match item with
    | Feature.DataRequest desc => if searchId search = desc.id then some desc else none
    | Feature.Other _ => none

/-- `serde_json::to_value` of a `Resolution` under its `Serialize` impl. -/
def resolutionJson (r : Resolution) : Json := Json.str r.serialize

/-- `serde_json::to_value` of a `Source` under its `Serialize` impl. -/
def sourceJson (s : Source) : Json := Json.str s.serialize

/-- `serde_json::to_value` of a `Category` under its `Serialize` impl. -/
def categoryJson (c : Category) : Json := Json.num (c.code : Int)

/-- The four payload refinements of `client.rs` `impl RequestParameters`,
as first-class values. -/
inductive Mutation where
  | resolution (r : Resolution) : Mutation
  | source (s : Source) : Mutation
  | category (c : Category) : Mutation
  | lowVolume (b : Bool) : Mutation

/-- Which of the four refinement paths a mutation writes to. -/
def Mutation.kind : Mutation → Nat
  | Mutation.resolution _ => 0
  | Mutation.source _ => 1
  | Mutation.category _ => 2
  | Mutation.lowVolume _ => 3

/-- `client.rs` `impl RequestParameters`: each refinement writes its
serialized value at a fixed path of the payload tree (`none` models the
panic of indexing into a non-object). -/
def Mutation.apply : Mutation → Json → Option Json
  | Mutation.resolution r, p => p.setPath ["resolution"] (resolutionJson r)
  | Mutation.source s, p => p.setPath ["requestOptions", "property"] (sourceJson s)
  | Mutation.category c, p => p.setPath ["requestOptions", "category"] (categoryJson c)
  | Mutation.lowVolume b, p => p.setPath ["includeLowSearchVolumeGeos"] (Json.bool b)

/-- `client.rs` `RequestParameters::resolution`. -/
def RequestParameters.resolution (p : RequestParameters) (r : Resolution) : Option RequestParameters :=
  ((Mutation.resolution r).apply p.request).map fun q => { p with request := q }

/-- `client.rs` `RequestParameters::source`. -/
def RequestParameters.source (p : RequestParameters) (s : Source) : Option RequestParameters :=
  ((Mutation.source s).apply p.request).map fun q => { p with request := q }

/-- `client.rs` `RequestParameters::category`. -/
def RequestParameters.category (p : RequestParameters) (c : Category) : Option RequestParameters :=
  ((Mutation.category c).apply p.request).map fun q => { p with request := q }

/-- `client.rs` `RequestParameters::include_low_volume_geos`. -/
def RequestParameters.include_low_volume_geos (p : RequestParameters) (b : Bool) : Option RequestParameters :=
  ((Mutation.lowVolume b).apply p.request).map fun q => { p with request := q }

/-- `client.rs` orchestration (`interest_by_time` / `interest_by_region`
after the explore response has been decoded): select the widget via
`get_request`, fail with `UnexpectedResponse "Search feature unavailable"`
when none matches, otherwise run the fetch stage. The second component
counts how many fetch calls were performed (the `?` operator aborts the
pipeline on the explore failure, so the fetch stage is never reached). -/
def fetchPipeline {α : Type} (widgets : List Feature) (search : SearchType)
    (fetch : RequestParameters → Except Error α) : Except Error α × Nat :=
  match getRequest widgets search with
  | none => (Except.error (Error.UnexpectedResponse "Search feature unavailable"), 0)
  | some item => (fetch item, 1)

/-- Modelled from the spec: whitespace skipping of the external JSON
decoding collaborator (`serde_json::from_str`). -/
def skipWs : List Char → List Char
  | [] => []
  | c :: rest =>
    if c = ' ' || c = '\n' || c = '\t' || c = '\r' then skipWs rest
    else c :: rest

/-- Modelled from the spec: the basic JSON string escapes. -/
def escChar (c : Char) : Option Char :=
  if c = '"' then some '"'
  else if c = '\\' then some '\\'
  else if c = '/' then some '/'
  else if c = 'n' then some '\n'
  else if c = 't' then some '\t'
  else if c = 'r' then some '\r'
  else none

/-- Modelled from the spec: the remainder of a JSON string literal after
its opening quote; yields the content and the input after the closing
quote. -/
def stringChars : List Char → Option (List Char × List Char)
  | [] => none
  | c :: rest =>
    if c = '"' then some ([], rest)
    else if c = '\\' then
      match rest with
      | [] => none
      | e :: rest2 =>
        match escChar e with
        | none => none
        | some ec =>
          match stringChars rest2 with
          | none => none
          | some (s, r) => some (ec :: s, r)
    else
      match stringChars rest with
      | none => none
      | some (s, r) => some (c :: s, r)

/-- Accumulating decimal-digit scan. -/
def digitsAcc (acc : Nat) : List Char → Nat × List Char
  | [] => (acc, [])
  | c :: rest =>
    if c.isDigit then digitsAcc (acc * 10 + (c.toNat - 48)) rest
    else (acc, c :: rest)

/-- Modelled from the spec: a JSON integer literal (this client never
reads fractional numbers; a fraction or exponent makes the parse fail). -/
def numberToken : List Char → Option (Json × List Char)
  | [] => none
  | c :: rest =>
    if c = '-' then
      match rest with
      | [] => none
      | d :: rest2 =>
        if d.isDigit then
          match digitsAcc (d.toNat - 48) rest2 with
          | (n, r) =>
            match r with
            | '.' :: _ => none
            | 'e' :: _ => none
            | 'E' :: _ => none
            | _ => some (Json.num (-(n : Int)), r)
        else none
    else if c.isDigit then
      match digitsAcc (c.toNat - 48) rest with
      | (n, r) =>
        match r with
        | '.' :: _ => none
        | 'e' :: _ => none
        | 'E' :: _ => none
        | _ => some (Json.num (n : Int), r)
    else none

mutual

/-- Modelled from the spec: recursive-descent JSON value parse of the
external `serde_json` collaborator, fuelled by input length. -/
def parseVal : Nat → List Char → Option (Json × List Char)
  | 0, _ => none
  | fuel + 1, cs =>
    match skipWs cs with
    | 'n' :: 'u' :: 'l' :: 'l' :: r => some (Json.null, r)
    | 't' :: 'r' :: 'u' :: 'e' :: r => some (Json.bool true, r)
    | 'f' :: 'a' :: 'l' :: 's' :: 'e' :: r => some (Json.bool false, r)
    | '"' :: r =>
      match stringChars r with
      | some (s, r2) => some (Json.str (String.mk s), r2)
      | none => none
    | '[' :: r =>
      match skipWs r with
      | ']' :: r2 => some (Json.arr [], r2)
      | cs2 => arrElems fuel cs2 []
    | '\x7b' :: r =>
      match skipWs r with
      | '\x7d' :: r2 => some (Json.obj [], r2)
      | cs2 => objFields fuel cs2 []
    | cs2 => numberToken cs2

/-- Modelled from the spec: the comma-separated elements of a JSON array,
after the opening bracket. -/
def arrElems : Nat → List Char → List Json → Option (Json × List Char)
  | 0, _, _ => none
  | fuel + 1, cs, acc =>
    match parseVal fuel cs with
    | none => none
    | some (j, r) =>
      match skipWs r with
      | ',' :: r2 => arrElems fuel r2 (j :: acc)
      | ']' :: r2 => some (Json.arr (j :: acc).reverse, r2)
      | _ => none

/-- Modelled from the spec: the comma-separated fields of a JSON object,
after the opening brace. -/
def objFields : Nat → List Char → List (String × Json) → Option (Json × List Char)
  | 0, _, _ => none
  | fuel + 1, cs, acc =>
    match skipWs cs with
    | '"' :: r =>
      match stringChars r with
      | none => none
      | some (k, r2) =>
        match skipWs r2 with
        | ':' :: r3 =>
          match parseVal fuel r3 with
          | none => none
          | some (v, r4) =>
            match skipWs r4 with
            | ',' :: r5 => objFields fuel r5 ((String.mk k, v) :: acc)
            | '\x7d' :: r5 => some (Json.obj ((String.mk k, v) :: acc).reverse, r5)
            | _ => none
        | _ => none
    | _ => none

end

/-- Modelled from the spec: `serde_json::from_str`'s text-to-tree stage;
the whole input must be one JSON value up to whitespace. -/
def Json.parse (cs : List Char) : Option Json :=
  match parseVal (2 * cs.length + 2) cs with
  | some (j, r) => if (skipWs r).isEmpty then some j else none
  | none => none

/-- Decode one element of a `Vec<u8>` (serde rejects out-of-range numbers). -/
def decodeU8 : Json → Option Nat
  | Json.num n => if 0 ≤ n ∧ n < 256 then some n.toNat else none
  | _ => none

/-- Decode a JSON boolean. -/
def decodeBool : Json → Option Bool
  | Json.bool b => some b
  | _ => none

/-- Sequential element-wise decode of a JSON array, failing on the first
bad element (serde's `Vec` decoding). -/
def decodeList {α : Type} (f : Json → Option α) : List Json → Option (List α)
  | [] => some []
  | x :: xs =>
    match f x, decodeList f xs with
    | some y, some ys => some (y :: ys)
    | _, _ => none

/-- All-digit characters read as a number. -/
def digitsVal : List Char → Option Nat
  | [] => none
  | cs => if cs.all Char.isDigit then some (digitsAcc 0 cs).1 else none

/-- Modelled from the spec: `types.rs` `trends_time_format`, parsing an
epoch-seconds string (`str.parse::<i64>()`) into a timestamp. -/
def parseEpochSeconds (s : String) : Option Int :=
  match s.toList with
  | '-' :: ds => (digitsVal ds).map fun n => -(n : Int)
  | '+' :: ds => (digitsVal ds).map fun n => (n : Int)
  | ds => (digitsVal ds).map fun n => (n : Int)

/-- `types.rs` `TimeSeriesEntry`: the timestamp is kept as epoch seconds. -/
structure TimeSeriesEntry where
  time : Int
  formattedTime : String
  value : List Nat
  hasData : List Bool

/-- `types.rs` `TimeSeriesData` (`timelineData` entry list). -/
structure TimeSeriesData where
  entries : List TimeSeriesEntry

/-- `client.rs` `TimeSeriesResponse` (the `default` wrapper). -/
structure TimeSeriesResponse where
  default : TimeSeriesData

/-- Modelled from the spec: serde's derived decode of `TimeSeriesEntry`
(camelCase field names, unknown fields ignored). -/
def decodeTimeSeriesEntry : Json → Option TimeSeriesEntry
  | Json.obj kvs =>
    match lookupKey kvs "time", lookupKey kvs "formattedTime",
      lookupKey kvs "value", lookupKey kvs "hasData" with
    | some (Json.str t), some (Json.str ft), some (Json.arr vs), some (Json.arr hs) =>
      match parseEpochSeconds t, decodeList decodeU8 vs, decodeList decodeBool hs with
      | some secs, some vals, some flags => some ⟨secs, ft, vals, flags⟩
      | _, _, _ => none
    | _, _, _, _ => none
  | _ => none

/-- Modelled from the spec: serde's derived decode of `TimeSeriesData`
(the renamed `timelineData` field). -/
def decodeTimeSeriesData : Json → Option TimeSeriesData
  | Json.obj kvs =>
    match lookupKey kvs "timelineData" with
    | some (Json.arr es) => (decodeList decodeTimeSeriesEntry es).map fun l => ⟨l⟩
    | _ => none
  | _ => none

/-- Modelled from the spec: serde's derived decode of `TimeSeriesResponse`. -/
def decodeTimeSeriesResponse : Json → Option TimeSeriesResponse
  | Json.obj kvs =>
    match lookupKey kvs "default" with
    | some d => (decodeTimeSeriesData d).map fun x => ⟨x⟩
    | none => none
  | _ => none

/-- Modelled from the spec: serde's untagged decode of `Feature` — the
richer `DataRequest` shape is attempted first (`token` and `id` strings
plus a `request` payload), then the minimal `Other` shape (`id` only). -/
def decodeFeature : Json → Option Feature
  | Json.obj kvs =>
    match lookupKey kvs "token", lookupKey kvs "id", lookupKey kvs "request" with
    | some (Json.str tok), some (Json.str i), some req =>
      some (Feature.DataRequest ⟨tok, i, req⟩)
    | _, _, _ =>
      match lookupKey kvs "id" with
      | some (Json.str i) => some (Feature.Other i)
      | _ => none
  | _ => none

/-- `client.rs` `ExploreResponse`. -/
structure ExploreResponse where
  widgets : List Feature

/-- Modelled from the spec: serde's derived decode of `ExploreResponse`. -/
def decodeExploreResponse : Json → Option ExploreResponse
  | Json.obj kvs =>
    match lookupKey kvs "widgets" with
    | some (Json.arr ws) => (decodeList decodeFeature ws).map fun l => ⟨l⟩
    | _ => none
  | _ => none

/-- `client.rs` `TrendsClient::query`, decode stage:
`serde_json::from_str(&body[5..])` on a widget-fetch body. `none` is the
panic of the unchecked byte slice; a failed deserialization becomes
`Error::JsonError` through the `?` conversion, and a successful one is
unwrapped to the inner `default` payload. -/
def decodeFetchBody (body : List Char) : Option (Except Error TimeSeriesData) :=
  match byteDrop? 5 body with
  | none => none
  | some rest =>
    match Json.parse rest with
    | none => some (Except.error Error.JsonError)
    | some j =>
      match decodeTimeSeriesResponse j with
      | none => some (Except.error Error.JsonError)
      | some r => some (Except.ok r.default)

/-- `client.rs` `TrendsClient::explore`, decode stage:
`serde_json::from_str(&body[4..])` on an explore body. -/
def decodeExploreBody (body : List Char) : Option (Except Error ExploreResponse) :=
  match byteDrop? 4 body with
  | none => none
  | some rest =>
    match Json.parse rest with
    | none => some (Except.error Error.JsonError)
    | some j =>
      match decodeExploreResponse j with
      | none => some (Except.error Error.JsonError)
      | some r => some (Except.ok r)

theorem charListLt_irrefl : ∀ (l : List Char), charListLt l l = false
  | [] => rfl
  | a :: as => by simp [charListLt, lt_irrefl, charListLt_irrefl as]

theorem charListLt_asymm : ∀ (l1 l2 : List Char),
    charListLt l1 l2 = true → charListLt l2 l1 = false := by
  intro l1
  induction l1 with
  | nil =>
    intro l2 h
    cases l2 with
    | nil => simp [charListLt] at h
    | cons b bs => simp [charListLt]
  | cons a as ih =>
    intro l2 h
    cases l2 with
    | nil => simp [charListLt] at h
    | cons b bs =>
      simp only [charListLt] at h ⊢
      rcases lt_trichotomy a b with hab | hab | hab
      · simp [hab, lt_asymm hab]
      · subst hab
        simp only [lt_irrefl, if_false] at h ⊢
        exact ih bs h
      · simp [hab, lt_asymm hab] at h

theorem charListLt_trans : ∀ (l1 l2 l3 : List Char),
    charListLt l1 l2 = true → charListLt l2 l3 = true → charListLt l1 l3 = true := by
  intro l1
  induction l1 with
  | nil =>
    intro l2 l3 h1 h2
    cases l2 with
    | nil => simp [charListLt] at h1
    | cons b bs =>
      cases l3 with
      | nil => simp [charListLt] at h2
      | cons c cs => simp [charListLt]
  | cons a as ih =>
    intro l2 l3 h1 h2
    cases l2 with
    | nil => simp [charListLt] at h1
    | cons b bs =>
      cases l3 with
      | nil => simp [charListLt] at h2
      | cons c cs =>
        simp only [charListLt] at h1 h2 ⊢
        rcases lt_trichotomy a b with hab | hab | hab
        · rcases lt_trichotomy b c with hbc | hbc | hbc
          · simp [lt_trans hab hbc]
          · subst hbc; simp [hab]
          · simp [hbc, lt_asymm hbc] at h2
        · subst hab
          rcases lt_trichotomy a c with hac | hac | hac
          · simp [hac]
          · subst hac
            simp only [lt_irrefl, if_false] at h1 h2 ⊢
            exact ih bs cs h1 h2
          · simp [hac, lt_asymm hac] at h2
        · simp [hab, lt_asymm hab] at h1

theorem charListLt_total : ∀ (l1 l2 : List Char),
    l1 ≠ l2 → charListLt l1 l2 = true ∨ charListLt l2 l1 = true := by
  intro l1
  induction l1 with
  | nil =>
    intro l2 h
    cases l2 with
    | nil => exact absurd rfl h
    | cons b bs => left; rfl
  | cons a as ih =>
    intro l2 h
    cases l2 with
    | nil => right; rfl
    | cons b bs =>
      rcases lt_trichotomy a b with hab | hab | hab
      · left; simp [charListLt, hab]
      · subst hab
        have hne : as ≠ bs := fun he => h (by rw [he])
        rcases ih bs hne with h1 | h1
        · left; simp [charListLt, lt_irrefl, h1]
        · right; simp [charListLt, lt_irrefl, h1]
      · right; simp [charListLt, hab]

theorem strLt_irrefl (a : String) : strLt a a = false :=
  charListLt_irrefl a.data

theorem strLt_asymm {a b : String} (h : strLt a b = true) : strLt b a = false :=
  charListLt_asymm _ _ h

theorem strLt_total {a b : String} (h : a ≠ b) : strLt a b = true ∨ strLt b a = true := by
  refine charListLt_total _ _ fun hd => h ?_
  cases a
  cases b
  exact congrArg String.mk hd

theorem strLt_cases (a b : String) :
    (a = b ∧ strLt a b = false ∧ strLt b a = false) ∨
    (strLt a b = true ∧ strLt b a = false ∧ a ≠ b) ∨
    (strLt b a = true ∧ strLt a b = false ∧ a ≠ b) := by
  by_cases he : a = b
  · subst he
    exact Or.inl ⟨rfl, strLt_irrefl a, strLt_irrefl a⟩
  · rcases strLt_total he with h1 | h1
    · exact Or.inr (Or.inl ⟨h1, strLt_asymm h1, he⟩)
    · exact Or.inr (Or.inr ⟨h1, strLt_asymm h1, he⟩)

theorem strLt_trans {a b c : String} (h1 : strLt a b = true) (h2 : strLt b c = true) :
    strLt a c = true :=
  charListLt_trans _ _ _ h1 h2

theorem strLt_ne {a b : String} (h : strLt a b = true) : a ≠ b := by
  intro he
  subst he
  rw [strLt_irrefl] at h
  exact Bool.noConfusion h

theorem lookupKey_setKey_self : ∀ (l : List (String × Json)) (k : String) (v : Json),
    lookupKey (setKey l k v) k = some v := by
  intro l k v
  induction l with
  | nil => simp [setKey, lookupKey]
  | cons hd tl ih =>
    obtain ⟨k0, v0⟩ := hd
    by_cases h1 : strLt k k0 = true
    · simp [setKey, h1, lookupKey]
    · by_cases h2 : k = k0
      · subst h2
        simp [setKey, h1, strLt_irrefl, lookupKey]
      · simp [setKey, h1, h2, lookupKey, ih]

theorem lookupKey_setKey_ne : ∀ (l : List (String × Json)) {k k' : String} (v : Json),
    k' ≠ k → lookupKey (setKey l k v) k' = lookupKey l k' := by
  intro l k k' v hne
  induction l with
  | nil => simp [setKey, lookupKey, hne]
  | cons hd tl ih =>
    obtain ⟨k0, v0⟩ := hd
    by_cases h1 : strLt k k0 = true
    · simp [setKey, h1, lookupKey, hne]
    · by_cases h2 : k = k0
      · subst h2
        simp [setKey, h1, lookupKey, hne]
      · by_cases h3 : k' = k0
        · simp [setKey, h1, h2, lookupKey, h3]
        · simp [setKey, h1, h2, lookupKey, h3, ih]

theorem setKey_setKey_same : ∀ (l : List (String × Json)) (k : String) (a b : Json),
    setKey (setKey l k a) k b = setKey l k b := by
  intro l k a b
  induction l with
  | nil => simp [setKey, strLt_irrefl]
  | cons hd tl ih =>
    obtain ⟨k0, v0⟩ := hd
    by_cases h1 : strLt k k0 = true
    · simp [setKey, h1, strLt_irrefl]
    · by_cases h2 : k = k0
      · subst h2
        simp [setKey, h1, strLt_irrefl]
      · simp [setKey, h1, h2, ih]

theorem setKey_comm : ∀ (l : List (String × Json)) {k1 k2 : String} (v1 v2 : Json),
    k1 ≠ k2 → setKey (setKey l k1 v1) k2 v2 = setKey (setKey l k2 v2) k1 v1 := by
  intro l k1 k2 v1 v2 h
  induction l with
  | nil =>
    rcases strLt_cases k1 k2 with ⟨he, _, _⟩ | ⟨t12, f21, _⟩ | ⟨t21, f12, _⟩
    · exact absurd he h
    · simp [setKey, t12, f21, h, Ne.symm h]
    · simp [setKey, t21, f12, h, Ne.symm h]
  | cons hd tl ih =>
    obtain ⟨k0, v0⟩ := hd
    rcases strLt_cases k1 k0 with ⟨e10, f10, f01⟩ | ⟨t10, f01, n10⟩ | ⟨t01, f10, n10⟩
    · subst e10
      rcases strLt_cases k2 k1 with ⟨e21, _, _⟩ | ⟨t21, f12, _⟩ | ⟨t12, f21, _⟩
      · exact absurd e21.symm h
      · simp [setKey, strLt_irrefl, t21, f12, h, Ne.symm h]
      · simp [setKey, strLt_irrefl, t12, f21, h, Ne.symm h]
    · -- strLt k1 k0
      rcases strLt_cases k2 k0 with ⟨e20, f20, f02⟩ | ⟨t20, f02, n20⟩ | ⟨t02, f20, n20⟩
      · subst e20
        simp [setKey, t10, strLt_asymm t10, strLt_irrefl, h, Ne.symm h]
      · -- strLt k2 k0 as well: order of k1, k2 decides
        rcases strLt_cases k1 k2 with ⟨he, _, _⟩ | ⟨t12, f21, _⟩ | ⟨t21, f12, _⟩
        · exact absurd he h
        · simp [setKey, t10, t20, t12, f21, h, Ne.symm h]
        · simp [setKey, t10, t20, t21, f12, h, Ne.symm h]
      · -- strLt k1 k0 and strLt k0 k2
        have t12 : strLt k1 k2 = true := strLt_trans t10 t02
        simp [setKey, t10, f20, n20, strLt_asymm t12, h, Ne.symm h]
    · -- strLt k0 k1
      rcases strLt_cases k2 k0 with ⟨e20, f20, f02⟩ | ⟨t20, f02, n20⟩ | ⟨t02, f20, n20⟩
      · subst e20
        simp [setKey, f10, n10, strLt_asymm t01, strLt_irrefl, h, Ne.symm h, t01]
      · -- strLt k2 k0 and strLt k0 k1
        have t21 : strLt k2 k1 = true := strLt_trans t20 t01
        simp [setKey, f10, n10, t20, strLt_asymm t21, h, Ne.symm h]
      · -- both after the head
        simp [setKey, f10, n10, f20, n20, ih]

theorem decodeList_length {α : Type} (f : Json → Option α) :
    ∀ (xs : List Json) (l : List α), decodeList f xs = some l → l.length = xs.length := by
  intro xs
  induction xs with
  | nil =>
    intro l hl
    simp only [decodeList, Option.some.injEq] at hl
    simp [← hl]
  | cons x xs ih =>
    intro l hl
    simp only [decodeList] at hl
    cases hx : f x with
    | none => rw [hx] at hl; exact absurd hl (by simp)
    | some y =>
      rw [hx] at hl
      cases hxs : decodeList f xs with
      | none => rw [hxs] at hl; exact absurd hl (by simp)
      | some ys =>
        rw [hxs] at hl
        simp only [Option.some.injEq] at hl
        subst hl
        simp [ih ys hxs]

theorem charSize_pos (c : Char) : 1 ≤ charSize c := by
  unfold charSize
  split_ifs <;> omega

theorem byteDrop_append : ∀ (pre rest : List Char),
    byteDrop? (utf8Len pre) (pre ++ rest) = some rest := by
  intro pre
  induction pre with
  | nil =>
    intro rest
    cases rest <;> simp [byteDrop?, utf8Len]
  | cons c pre ih =>
    intro rest
    have hpos := charSize_pos c
    have hn : utf8Len (c :: pre) = charSize c + utf8Len pre := by
      simp [utf8Len, List.foldr]
    rw [hn]
    simp only [List.cons_append, byteDrop?]
    rw [if_neg (by omega), if_pos (by omega)]
    have : charSize c + utf8Len pre - charSize c = utf8Len pre := by omega
    rw [this]
    exact ih rest

theorem byteDrop_some : ∀ (cs suf : List Char) (n : Nat),
    byteDrop? n cs = some suf → ∃ pre, cs = pre ++ suf ∧ utf8Len pre = n := by
  intro cs
  induction cs with
  | nil =>
    intro suf n h
    simp only [byteDrop?] at h
    by_cases hn : n = 0
    · subst hn
      rw [if_pos rfl] at h
      injection h with h
      exact ⟨[], by simpa using h, rfl⟩
    · rw [if_neg hn] at h
      exact absurd h (by simp)
  | cons c rest ih =>
    intro suf n h
    simp only [byteDrop?] at h
    by_cases hn : n = 0
    · subst hn
      rw [if_pos rfl] at h
      injection h with h
      exact ⟨[], by simpa using h, rfl⟩
    · rw [if_neg hn] at h
      by_cases hc : charSize c ≤ n
      · rw [if_pos hc] at h
        obtain ⟨pre, heq, hlen⟩ := ih suf (n - charSize c) h
        refine ⟨c :: pre, by simp [heq], ?_⟩
        have h2 : utf8Len (c :: pre) = charSize c + utf8Len pre := by
          simp [utf8Len, List.foldr]
        omega
      · rw [if_neg hc] at h
        exact absurd h (by simp)

theorem setKey_pair_comm {k1 k2 : String} (v1 v2 : Json) (h : k1 ≠ k2) :
    setKey [(k1, v1)] k2 v2 = setKey [(k2, v2)] k1 v1 := by
  have h0 := setKey_comm ([] : List (String × Json)) v1 v2 h
  simpa [setKey] using h0

theorem setPath_one (kvs : List (String × Json)) (k : String) (v : Json) :
    Json.setPath (Json.obj kvs) [k] v = some (Json.obj (setKey kvs k v)) := by
  simp [Json.setPath]

theorem setPath_one_null (k : String) (v : Json) :
    Json.setPath Json.null [k] v = some (Json.obj [(k, v)]) := by
  simp [Json.setPath]
theorem setPath_two_obj {kvs c : List (String × Json)} {k : String} (j : String) (v : Json)
    (hc : lookupKey kvs k = some (Json.obj c)) :
    Json.setPath (Json.obj kvs) [k, j] v =
      some (Json.obj (setKey kvs k (Json.obj (setKey c j v)))) := by
  simp [Json.setPath, hc]

theorem setPath_two_missing {kvs : List (String × Json)} {k : String} (j : String) (v : Json)
    (hc : lookupKey kvs k = none) :
    Json.setPath (Json.obj kvs) [k, j] v =
      some (Json.obj (setKey kvs k (Json.obj [(j, v)]))) := by
  simp [Json.setPath, hc]

theorem setPath_two_nullval {kvs : List (String × Json)} {k : String} (j : String) (v : Json)
    (hc : lookupKey kvs k = some Json.null) :
    Json.setPath (Json.obj kvs) [k, j] v =
      some (Json.obj (setKey kvs k (Json.obj [(j, v)]))) := by
  simp [Json.setPath, hc]

theorem setPath_two_null (k j : String) (v : Json) :
    Json.setPath Json.null [k, j] v = some (Json.obj [(k, Json.obj [(j, v)])]) := by
  simp [Json.setPath]

theorem setPath_single_comm (p : Json) {k1 k2 : String} (v1 v2 : Json) (h : k1 ≠ k2) :
    (p.setPath [k1] v1).bind (fun q => q.setPath [k2] v2) =
    (p.setPath [k2] v2).bind (fun q => q.setPath [k1] v1) := by
  cases p with
  | obj kvs =>
    rw [setPath_one, setPath_one, Option.some_bind, Option.some_bind,
      setPath_one, setPath_one, setKey_comm kvs v1 v2 h]
  | null =>
    rw [setPath_one_null, setPath_one_null, Option.some_bind, Option.some_bind,
      setPath_one, setPath_one, setKey_pair_comm v1 v2 h]
  | bool b => simp [Json.setPath]
  | num n => simp [Json.setPath]
  | str s => simp [Json.setPath]
  | arr xs => simp [Json.setPath]

theorem setPath_single_nested_comm (p : Json) {k1 k2 j : String} (v1 v2 : Json)
    (h : k1 ≠ k2) :
    (p.setPath [k1] v1).bind (fun q => q.setPath [k2, j] v2) =
    (p.setPath [k2, j] v2).bind (fun q => q.setPath [k1] v1) := by
  cases p with
  | obj kvs =>
    rw [setPath_one, Option.some_bind]
    cases hc : lookupKey kvs k2 with
    | none =>
      have hc2 : lookupKey (setKey kvs k1 v1) k2 = none := by
        rw [lookupKey_setKey_ne kvs v1 (Ne.symm h), hc]
      rw [setPath_two_missing j v2 hc2, setPath_two_missing j v2 hc, Option.some_bind,
        setPath_one, setKey_comm kvs v1 (Json.obj [(j, v2)]) h]
    | some cur =>
      have hc2 : lookupKey (setKey kvs k1 v1) k2 = some cur := by
        rw [lookupKey_setKey_ne kvs v1 (Ne.symm h), hc]
      cases cur with
      | obj c =>
        rw [setPath_two_obj j v2 hc2, setPath_two_obj j v2 hc, Option.some_bind,
          setPath_one, setKey_comm kvs v1 (Json.obj (setKey c j v2)) h]
      | null =>
        rw [setPath_two_nullval j v2 hc2, setPath_two_nullval j v2 hc, Option.some_bind,
          setPath_one, setKey_comm kvs v1 (Json.obj [(j, v2)]) h]
      | bool b => simp [Json.setPath, hc, hc2]
      | num n => simp [Json.setPath, hc, hc2]
      | str s => simp [Json.setPath, hc, hc2]
      | arr xs => simp [Json.setPath, hc, hc2]
  | null =>
    have hl : lookupKey [(k1, v1)] k2 = none := by
      simp [lookupKey, Ne.symm h]
    rw [setPath_one_null, Option.some_bind, setPath_two_missing j v2 hl,
      setPath_two_null, Option.some_bind, setPath_one,
      setKey_pair_comm v1 (Json.obj [(j, v2)]) h]
  | bool b => simp [Json.setPath]
  | num n => simp [Json.setPath]
  | str s => simp [Json.setPath]
  | arr xs => simp [Json.setPath]

theorem setPath_nested_comm (p : Json) {k j1 j2 : String} (v1 v2 : Json) (h : j1 ≠ j2) :
    (p.setPath [k, j1] v1).bind (fun q => q.setPath [k, j2] v2) =
    (p.setPath [k, j2] v2).bind (fun q => q.setPath [k, j1] v1) := by
  cases p with
  | obj kvs =>
    cases hc : lookupKey kvs k with
    | none =>
      rw [setPath_two_missing j1 v1 hc, Option.some_bind,
        setPath_two_missing j2 v2 hc, Option.some_bind,
        setPath_two_obj j2 v2 (lookupKey_setKey_self kvs k (Json.obj [(j1, v1)])),
        setPath_two_obj j1 v1 (lookupKey_setKey_self kvs k (Json.obj [(j2, v2)])),
        setKey_setKey_same, setKey_setKey_same, setKey_pair_comm v1 v2 h]
    | some cur =>
      cases cur with
      | obj c =>
        rw [setPath_two_obj j1 v1 hc, Option.some_bind,
          setPath_two_obj j2 v2 hc, Option.some_bind,
          setPath_two_obj j2 v2 (lookupKey_setKey_self kvs k (Json.obj (setKey c j1 v1))),
          setPath_two_obj j1 v1 (lookupKey_setKey_self kvs k (Json.obj (setKey c j2 v2))),
          setKey_setKey_same, setKey_setKey_same, setKey_comm c v1 v2 h]
      | null =>
        rw [setPath_two_nullval j1 v1 hc, Option.some_bind,
          setPath_two_nullval j2 v2 hc, Option.some_bind,
          setPath_two_obj j2 v2 (lookupKey_setKey_self kvs k (Json.obj [(j1, v1)])),
          setPath_two_obj j1 v1 (lookupKey_setKey_self kvs k (Json.obj [(j2, v2)])),
          setKey_setKey_same, setKey_setKey_same, setKey_pair_comm v1 v2 h]
      | bool b => simp [Json.setPath, hc]
      | num n => simp [Json.setPath, hc]
      | str s => simp [Json.setPath, hc]
      | arr xs => simp [Json.setPath, hc]
  | null =>
    have hl1 : lookupKey [(k, Json.obj [(j1, v1)])] k = some (Json.obj [(j1, v1)]) := by
      simp [lookupKey]
    have hl2 : lookupKey [(k, Json.obj [(j2, v2)])] k = some (Json.obj [(j2, v2)]) := by
      simp [lookupKey]
    have hs : ∀ (x y : Json), setKey [(k, x)] k y = [(k, y)] := by
      intro x y
      simp [setKey, strLt_irrefl]
    rw [setPath_two_null, Option.some_bind, setPath_two_null, Option.some_bind,
      setPath_two_obj j2 v2 hl1, setPath_two_obj j1 v1 hl2, hs, hs,
      setKey_pair_comm v1 v2 h]
  | bool b => simp [Json.setPath]
  | num n => simp [Json.setPath]
  | str s => simp [Json.setPath]
  | arr xs => simp [Json.setPath]

theorem getPath_single (kvs : List (String × Json)) (k : String) :
    Json.getPath (Json.obj kvs) [k] = lookupKey kvs k := by
  cases h : lookupKey kvs k <;> simp [Json.getPath, h]

theorem setPath_one_lookup {p q : Json} {k : String} {v : Json}
    (h : Json.setPath p [k] v = some q) :
    ∃ kvs, q = Json.obj kvs ∧ lookupKey kvs k = some v := by
  cases p with
  | obj kvs0 =>
    rw [setPath_one] at h
    injection h with h
    exact ⟨setKey kvs0 k v, h.symm, lookupKey_setKey_self kvs0 k v⟩
  | null =>
    rw [setPath_one_null] at h
    injection h with h
    exact ⟨[(k, v)], h.symm, by simp [lookupKey]⟩
  | bool b => simp [Json.setPath] at h
  | num n => simp [Json.setPath] at h
  | str s => simp [Json.setPath] at h
  | arr xs => simp [Json.setPath] at h

theorem setPath_two_getPath {qkvs : List (String × Json)} {k2 j : String} {v2 r : Json}
    (h : Json.setPath (Json.obj qkvs) [k2, j] v2 = some r) :
    (∀ k', k' ≠ k2 → Json.getPath r [k'] = lookupKey qkvs k') ∧
    Json.getPath r [k2, j] = some v2 := by
  cases hc : lookupKey qkvs k2 with
  | none =>
    rw [setPath_two_missing j v2 hc] at h
    injection h with h
    subst h
    refine ⟨fun k' hk => ?_, ?_⟩
    · rw [getPath_single, lookupKey_setKey_ne qkvs _ hk]
    · simp [Json.getPath, lookupKey_setKey_self, lookupKey]
  | some cur =>
    cases cur with
    | obj c =>
      rw [setPath_two_obj j v2 hc] at h
      injection h with h
      subst h
      refine ⟨fun k' hk => ?_, ?_⟩
      · rw [getPath_single, lookupKey_setKey_ne qkvs _ hk]
      · simp [Json.getPath, lookupKey_setKey_self]
    | null =>
      rw [setPath_two_nullval j v2 hc] at h
      injection h with h
      subst h
      refine ⟨fun k' hk => ?_, ?_⟩
      · rw [getPath_single, lookupKey_setKey_ne qkvs _ hk]
      · simp [Json.getPath, lookupKey_setKey_self, lookupKey]
    | bool b => simp [Json.setPath, hc] at h
    | num n => simp [Json.setPath, hc] at h
    | str s => simp [Json.setPath, hc] at h
    | arr xs => simp [Json.setPath, hc] at h

theorem Mutation.apply_comm (m1 m2 : Mutation) (p : Json) (hk : m1.kind ≠ m2.kind) :
    (m1.apply p).bind (fun q => m2.apply q) = (m2.apply p).bind (fun q => m1.apply q) := by
  cases m1 with
  | resolution r =>
    cases m2 with
    | resolution r2 => exact absurd rfl hk
    | source s =>
      simp only [Mutation.apply]
      exact setPath_single_nested_comm p (resolutionJson r) (sourceJson s) (by decide)
    | category c =>
      simp only [Mutation.apply]
      exact setPath_single_nested_comm p (resolutionJson r) (categoryJson c) (by decide)
    | lowVolume b =>
      simp only [Mutation.apply]
      exact setPath_single_comm p (resolutionJson r) (Json.bool b) (by decide)
  | source s =>
    cases m2 with
    | resolution r =>
      simp only [Mutation.apply]
      exact (setPath_single_nested_comm p (resolutionJson r) (sourceJson s) (by decide)).symm
    | source s2 => exact absurd rfl hk
    | category c =>
      simp only [Mutation.apply]
      exact setPath_nested_comm p (sourceJson s) (categoryJson c) (by decide)
    | lowVolume b =>
      simp only [Mutation.apply]
      exact (setPath_single_nested_comm p (Json.bool b) (sourceJson s) (by decide)).symm
  | category c =>
    cases m2 with
    | resolution r =>
      simp only [Mutation.apply]
      exact (setPath_single_nested_comm p (resolutionJson r) (categoryJson c) (by decide)).symm
    | source s =>
      simp only [Mutation.apply]
      exact (setPath_nested_comm p (sourceJson s) (categoryJson c) (by decide)).symm
    | category c2 => exact absurd rfl hk
    | lowVolume b =>
      simp only [Mutation.apply]
      exact (setPath_single_nested_comm p (Json.bool b) (categoryJson c) (by decide)).symm
  | lowVolume b =>
    cases m2 with
    | resolution r =>
      simp only [Mutation.apply]
      exact (setPath_single_comm p (resolutionJson r) (Json.bool b) (by decide)).symm
    | source s =>
      simp only [Mutation.apply]
      exact setPath_single_nested_comm p (Json.bool b) (sourceJson s) (by decide)
    | category c =>
      simp only [Mutation.apply]
      exact setPath_single_nested_comm p (Json.bool b) (categoryJson c) (by decide)
    | lowVolume b2 => exact absurd rfl hk

theorem headerGet_headerInsert_self : ∀ (hs : List (String × String)) (k v : String),
    headerGet (headerInsert hs k v) k = some v := by
  intro hs k v
  induction hs with
  | nil => simp [headerInsert, headerGet]
  | cons hd tl ih =>
    obtain ⟨k0, v0⟩ := hd
    by_cases h : k0 = k
    · simp [headerInsert, h, ih]
    · simp [headerInsert, h, headerGet, Ne.symm h, ih]

theorem headerGet_headerInsert_ne : ∀ (hs : List (String × String)) {k k' : String} (v : String),
    k' ≠ k → headerGet (headerInsert hs k v) k' = headerGet hs k' := by
  intro hs k k' v hne
  induction hs with
  | nil => simp [headerInsert, headerGet, hne]
  | cons hd tl ih =>
    obtain ⟨k0, v0⟩ := hd
    by_cases h : k0 = k
    · subst h
      have hne2 : ¬ k' = k0 := hne
      simp [headerInsert, headerGet, ih, hne2]
    · simp [headerInsert, h, headerGet, ih]

theorem decodeFetchBody_isSome (body : List Char) :
    (decodeFetchBody body).isSome = (byteDrop? 5 body).isSome := by
  unfold decodeFetchBody
  cases hb : byteDrop? 5 body with
  | none => rfl
  | some rest =>
    cases hp : Json.parse rest with
    | none => simp [hp]
    | some j =>
      cases hr : decodeTimeSeriesResponse j with
      | none => simp [hp, hr]
      | some r => simp [hp, hr]

theorem decodeExploreBody_isSome (body : List Char) :
    (decodeExploreBody body).isSome = (byteDrop? 4 body).isSome := by
  unfold decodeExploreBody
  cases hb : byteDrop? 4 body with
  | none => rfl
  | some rest =>
    cases hp : Json.parse rest with
    | none => simp [hp]
    | some j =>
      cases hr : decodeExploreResponse j with
      | none => simp [hp, hr]
      | some r => simp [hp, hr]

/-- Claim C1 counterexample: on a 429 response with no Set-Cookie header the transport
still executes a second request (the trace has two entries, not one) and returns the
retry's response as `Ok`, instead of failing with "unexpected response". -/
theorem claim_C1_counterexample :
    (run_with_retry (fun _ _ => HttpResponse.mk 429 [] "limited")
        (HttpRequest.mk "GET" "https://trends.google.com/trends/api/explore" [])).2.length = 2 ∧
    (run_with_retry (fun _ _ => HttpResponse.mk 429 [] "limited")
        (HttpRequest.mk "GET" "https://trends.google.com/trends/api/explore" [])).1 =
      Except.ok (HttpResponse.mk 429 [] "limited") :=
  ⟨rfl, rfl⟩

/-- Claim C1 (amended): on a 429 response carrying no Set-Cookie header the transport
still performs exactly one retry — a fresh request with the same method, URL and
headers, with no Cookie header added — and returns the retry's response as-is; the 429
does not surface as an "unexpected response" failure of this stage. -/
theorem run_with_retry_429_no_cookie (exec : Nat → HttpRequest → HttpResponse)
    (req : HttpRequest)
    (h1 : (exec 0 req).status = 429)
    (h2 : headerGet (exec 0 req).headers "set-cookie" = none) :
    run_with_retry exec req =
      (Except.ok (exec 1 (HttpRequest.mk req.method req.url req.headers)),
        [req, HttpRequest.mk req.method req.url req.headers]) := by
  simp [run_with_retry, h1, h2]

/-- Witness for the amended C1 theorem at a concrete oracle and request. -/
theorem run_with_retry_429_no_cookie_witness :
    run_with_retry
        (fun n _ => if n = 0 then HttpResponse.mk 429 [] "limited"
          else HttpResponse.mk 200 [] "ok")
        (HttpRequest.mk "GET" "https://example.org/a" [("accept", "text/plain")]) =
      (Except.ok (HttpResponse.mk 200 [] "ok"),
        [HttpRequest.mk "GET" "https://example.org/a" [("accept", "text/plain")],
         HttpRequest.mk "GET" "https://example.org/a" [("accept", "text/plain")]]) :=
  run_with_retry_429_no_cookie _ _ rfl rfl

/-- Claim C2: on a 429 response whose Set-Cookie header is present the transport
executes exactly one retry (the trace is precisely the original request followed by the
retry), the retry keeps the method and URL, carries the original headers with the
cookie header bound to exactly the first `;`-delimited segment of the Set-Cookie value,
and the retry's response is returned as-is regardless of its status. -/
theorem run_with_retry_429_cookie (exec : Nat → HttpRequest → HttpResponse)
    (req : HttpRequest) (sc : String)
    (h1 : (exec 0 req).status = 429)
    (h2 : headerGet (exec 0 req).headers "set-cookie" = some sc) :
    run_with_retry exec req =
      (Except.ok (exec 1 (HttpRequest.mk req.method req.url
          (headerInsert req.headers "cookie" (firstSegment sc)))),
        [req, HttpRequest.mk req.method req.url
          (headerInsert req.headers "cookie" (firstSegment sc))]) ∧
    headerGet (headerInsert req.headers "cookie" (firstSegment sc)) "cookie" =
      some (firstSegment sc) ∧
    ∀ k, k ≠ "cookie" →
      headerGet (headerInsert req.headers "cookie" (firstSegment sc)) k =
        headerGet req.headers k :=
  ⟨by simp [run_with_retry, h1, h2],
   headerGet_headerInsert_self _ _ _,
   fun k hk => headerGet_headerInsert_ne _ _ hk⟩

/-- Witness for C2: the spec's own example cookie, with a retry that is itself
rate-limited and still returned as-is. -/
theorem run_with_retry_429_cookie_witness :
    run_with_retry
        (fun n _ => if n = 0
          then HttpResponse.mk 429 [("set-cookie", "SESSION=abc123; Path=/; Secure")] ""
          else HttpResponse.mk 429 [] "still limited")
        (HttpRequest.mk "GET" "https://example.org/a" [("accept", "text/plain")]) =
      (Except.ok (HttpResponse.mk 429 [] "still limited"),
        [HttpRequest.mk "GET" "https://example.org/a" [("accept", "text/plain")],
         HttpRequest.mk "GET" "https://example.org/a"
           [("accept", "text/plain"), ("cookie", "SESSION=abc123")]]) ∧
    headerGet [("accept", "text/plain"), ("cookie", "SESSION=abc123")] "cookie" =
      some "SESSION=abc123" :=
  ⟨(run_with_retry_429_cookie
      (fun n _ => if n = 0
        then HttpResponse.mk 429 [("set-cookie", "SESSION=abc123; Path=/; Secure")] ""
        else HttpResponse.mk 429 [] "still limited")
      (HttpRequest.mk "GET" "https://example.org/a" [("accept", "text/plain")])
      "SESSION=abc123; Path=/; Secure" rfl rfl).1,
   (run_with_retry_429_cookie
      (fun n _ => if n = 0
        then HttpResponse.mk 429 [("set-cookie", "SESSION=abc123; Path=/; Secure")] ""
        else HttpResponse.mk 429 [] "still limited")
      (HttpRequest.mk "GET" "https://example.org/a" [("accept", "text/plain")])
      "SESSION=abc123; Path=/; Secure" rfl rfl).2.1⟩

/-- Claim C3 counterexample: the widget-unavailable failure is the value
`Error.UnexpectedResponse "Search feature unavailable"` — the very same error value the
generic non-200 transport path can produce — so it is not a distinct named condition a
caller could tell apart from a generic unexpected response. -/
theorem claim_C3_counterexample :
    (fetchPipeline [Feature.Other "RELATED"] SearchType.TimeSeries
        (fun _ => Except.ok (0 : Nat))).1 =
      Except.error (Error.UnexpectedResponse "Search feature unavailable") ∧
    (run_with_retry (fun _ _ => HttpResponse.mk 500 [] "Search feature unavailable")
        (HttpRequest.mk "GET" "https://example.org/a" [])).1 =
      Except.error (Error.UnexpectedResponse "Search feature unavailable") :=
  ⟨rfl, rfl⟩

/-- Claim C3 (amended): when no data-request descriptor matches the requested report
type, no fetch call is performed and the call fails with
`Error.UnexpectedResponse "Search feature unavailable"` — the same generic
unexpected-response variant, distinguishable only by its message string. -/
theorem explore_no_matching_widget {α : Type} (widgets : List Feature)
    (search : SearchType) (fetch : RequestParameters → Except Error α)
    (h : getRequest widgets search = none) :
    fetchPipeline widgets search fetch =
      (Except.error (Error.UnexpectedResponse "Search feature unavailable"), 0) := by
  simp [fetchPipeline, h]

/-- Witness for the amended C3 theorem at a concrete widget list. -/
theorem explore_no_matching_widget_witness :
    getRequest [Feature.Other "x"] SearchType.Region = none ∧
    fetchPipeline [Feature.Other "x"] SearchType.Region (fun _ => Except.ok (0 : Nat)) =
      (Except.error (Error.UnexpectedResponse "Search feature unavailable"), 0) :=
  ⟨rfl, explore_no_matching_widget _ _ _ rfl⟩

/-- Claim C4: `get_request` returns the first data-request descriptor in list order
whose widget-type identifier equals the identifier bound to the requested report type;
"other" descriptors and non-matching data-request descriptors before it are skipped,
wherever they occur. -/
theorem getRequest_first_match (l2 : List Feature) (d : RequestParameters)
    (s : SearchType) (hd : d.id = searchId s) :
    ∀ (l1 : List Feature),
      (∀ f ∈ l1, ∀ d2, f = Feature.DataRequest d2 → d2.id ≠ searchId s) →
      getRequest (l1 ++ Feature.DataRequest d :: l2) s = some d := by
  intro l1
  induction l1 with
  | nil =>
    intro _
    simp [getRequest, List.findSome?_cons, hd]
  | cons f l1 ih =>
    intro h1
    have hrest : ∀ g ∈ l1, ∀ d2, g = Feature.DataRequest d2 → d2.id ≠ searchId s :=
      fun g hg => h1 g (List.mem_cons_of_mem f hg)
    cases f with
    | Other i =>
      simpa [getRequest, List.findSome?_cons] using ih hrest
    | DataRequest d2 =>
      have hne : ¬ searchId s = d2.id :=
        fun he => h1 (Feature.DataRequest d2) (List.mem_cons_self _ _) d2 rfl he.symm
      simpa [getRequest, List.findSome?_cons, hne] using ih hrest

/-- Witness for C4: a mixed list where an "other" entry and a non-matching data-request
entry precede the first match, and a second match follows it. -/
theorem getRequest_first_match_witness :
    getRequest [Feature.Other "NOPE",
      Feature.DataRequest (RequestParameters.mk "t0" "GEO_MAP" Json.null),
      Feature.DataRequest (RequestParameters.mk "t1" "TIMESERIES" Json.null),
      Feature.DataRequest (RequestParameters.mk "t2" "TIMESERIES" Json.null)]
      SearchType.TimeSeries =
      some (RequestParameters.mk "t1" "TIMESERIES" Json.null) :=
  getRequest_first_match
    [Feature.DataRequest (RequestParameters.mk "t2" "TIMESERIES" Json.null)]
    (RequestParameters.mk "t1" "TIMESERIES" Json.null)
    SearchType.TimeSeries rfl
    [Feature.Other "NOPE", Feature.DataRequest (RequestParameters.mk "t0" "GEO_MAP" Json.null)]
    (by
      intro f hf d2 he
      simp only [List.mem_cons, List.not_mem_nil, or_false] at hf
      rcases hf with rfl | rfl
      · cases he
      · injection he with he2
        rw [← he2]
        decide)

/-- Claim C5 counterexample: `Query::new` accepts the empty comparison-item list, so a
publicly constructed Query can violate the claimed non-emptiness invariant. -/
theorem claim_C5_counterexample : (Query.new []).comparison_item = [] := rfl

/-- Claim C5 (amended): `Query::new` performs no validation at all — it stores whatever
item list it is given (possibly empty) with the default category and property — while
the convenience constructor `Query::by_keyword` always produces exactly one item. -/
theorem query_new_no_validation :
    (∀ (items : List QueryItem), (Query.new items).comparison_item = items ∧
      (Query.new items).category = Category.All ∧
      (Query.new items).property = Source.Search) ∧
    (∀ (kw : String) (t : Timeframe), (Query.by_keyword kw t).comparison_item.length = 1) :=
  ⟨fun _ => ⟨rfl, rfl, rfl⟩, fun _ _ => rfl⟩

/-- Claim C6: decoding strips exactly 5 bytes from the front of a widget-fetch body and
exactly 4 from an explore body before JSON deserialization; the widget-fetch result is
the inner value of the `default` wrapper, with exactly one decoded entry per element of
the body's `timelineData` array. -/
theorem decode_strip_and_unwrap
    (pre rest : List Char) (es : List Json) (l : List TimeSeriesEntry)
    (pre4 rest4 : List Char) (ws : List Json) (fs : List Feature)
    (h5 : utf8Len pre = 5)
    (hp : Json.parse rest =
      some (Json.obj [("default", Json.obj [("timelineData", Json.arr es)])]))
    (hdec : decodeList decodeTimeSeriesEntry es = some l)
    (h4 : utf8Len pre4 = 4)
    (hp4 : Json.parse rest4 = some (Json.obj [("widgets", Json.arr ws)]))
    (hw : decodeList decodeFeature ws = some fs) :
    decodeFetchBody (pre ++ rest) = some (Except.ok (TimeSeriesData.mk l)) ∧
    l.length = es.length ∧
    decodeExploreBody (pre4 ++ rest4) = some (Except.ok (ExploreResponse.mk fs)) := by
  have hb5 : byteDrop? 5 (pre ++ rest) = some rest := by
    rw [← h5]
    exact byteDrop_append pre rest
  have hb4 : byteDrop? 4 (pre4 ++ rest4) = some rest4 := by
    rw [← h4]
    exact byteDrop_append pre4 rest4
  refine ⟨?_, decodeList_length _ es l hdec, ?_⟩
  · simp [decodeFetchBody, hb5, hp, decodeTimeSeriesResponse, lookupKey,
      decodeTimeSeriesData, hdec]
  · simp [decodeExploreBody, hb4, hp4, decodeExploreResponse, lookupKey, hw]

set_option maxRecDepth 8192 in
/-- Witness for C6: a concrete widget-fetch body (5-byte guard text, two timeline
entries) and a concrete explore body (4-byte guard text, one data-request widget and
one opaque widget), decoded end to end. -/
theorem decode_strip_and_unwrap_witness :
    decodeFetchBody (((")]A*\n" : String).toList ++
        ("\x7b\"default\":\x7b\"timelineData\":[\x7b\"time\":\"1600000000\",\"formattedTime\":\"Sep 2020\",\"value\":[42],\"hasData\":[true]\x7d,\x7b\"time\":\"1600604800\",\"formattedTime\":\"Oct 2020\",\"value\":[7],\"hasData\":[false]\x7d]\x7d\x7d" : String).toList)) =
      some (Except.ok (TimeSeriesData.mk
        [TimeSeriesEntry.mk 1600000000 "Sep 2020" [42] [true],
         TimeSeriesEntry.mk 1600604800 "Oct 2020" [7] [false]])) ∧
    (2 : Nat) = 2 ∧
    decodeExploreBody (((")]A\n" : String).toList ++
        ("\x7b\"widgets\":[\x7b\"id\":\"GEO_MAP\",\"token\":\"tok1\",\"request\":\x7b\x7d\x7d,\x7b\"id\":\"OTHER_W\"\x7d]\x7d" : String).toList)) =
      some (Except.ok (ExploreResponse.mk
        [Feature.DataRequest (RequestParameters.mk "tok1" "GEO_MAP" (Json.obj [])),
         Feature.Other "OTHER_W"])) := by
  have h := decode_strip_and_unwrap ((")]A*\n" : String).toList)
    (("\x7b\"default\":\x7b\"timelineData\":[\x7b\"time\":\"1600000000\",\"formattedTime\":\"Sep 2020\",\"value\":[42],\"hasData\":[true]\x7d,\x7b\"time\":\"1600604800\",\"formattedTime\":\"Oct 2020\",\"value\":[7],\"hasData\":[false]\x7d]\x7d\x7d" : String).toList)
    [Json.obj [("time", Json.str "1600000000"), ("formattedTime", Json.str "Sep 2020"),
      ("value", Json.arr [Json.num 42]), ("hasData", Json.arr [Json.bool true])],
     Json.obj [("time", Json.str "1600604800"), ("formattedTime", Json.str "Oct 2020"),
      ("value", Json.arr [Json.num 7]), ("hasData", Json.arr [Json.bool false])]]
    [TimeSeriesEntry.mk 1600000000 "Sep 2020" [42] [true],
     TimeSeriesEntry.mk 1600604800 "Oct 2020" [7] [false]]
    ((")]A\n" : String).toList)
    (("\x7b\"widgets\":[\x7b\"id\":\"GEO_MAP\",\"token\":\"tok1\",\"request\":\x7b\x7d\x7d,\x7b\"id\":\"OTHER_W\"\x7d]\x7d" : String).toList)
    [Json.obj [("id", Json.str "GEO_MAP"), ("token", Json.str "tok1"),
      ("request", Json.obj [])],
     Json.obj [("id", Json.str "OTHER_W")]]
    [Feature.DataRequest (RequestParameters.mk "tok1" "GEO_MAP" (Json.obj [])),
     Feature.Other "OTHER_W"]
    rfl rfl rfl rfl rfl rfl
  exact ⟨h.1, rfl, h.2.2⟩

/-- Claim C7: any two payload refinements that write to distinct paths (resolution,
source vertical, category, low-volume-geos flag) commute on every payload tree, and
applying Resolution=City then SourceVertical=News yields a payload whose `resolution`
field is "CITY" and whose `requestOptions.property` field is "news". -/
theorem mutation_order_insensitive :
    (∀ (m1 m2 : Mutation) (p : Json), m1.kind ≠ m2.kind →
      (m1.apply p).bind (fun q => m2.apply q) = (m2.apply p).bind (fun q => m1.apply q)) ∧
    (∀ (p q r : Json),
      (Mutation.resolution Resolution.City).apply p = some q →
      (Mutation.source Source.News).apply q = some r →
      Json.getPath r ["resolution"] = some (Json.str "CITY") ∧
      Json.getPath r ["requestOptions", "property"] = some (Json.str "news")) := by
  refine ⟨Mutation.apply_comm, fun p q r h1 h2 => ?_⟩
  obtain ⟨qkvs, rfl, hq⟩ := setPath_one_lookup h1
  obtain ⟨hother, hprop⟩ := setPath_two_getPath h2
  refine ⟨?_, hprop⟩
  rw [hother "resolution" (by decide), hq]
  rfl

/-- Witness for C7: commutation of two concrete distinct-path mutations on a concrete
payload, and the CITY/news field values after the example mutation sequence. -/
theorem mutation_order_insensitive_witness :
    ((Mutation.resolution Resolution.City).apply (Json.obj [])).bind
        (fun q => (Mutation.lowVolume true).apply q) =
      ((Mutation.lowVolume true).apply (Json.obj [])).bind
        (fun q => (Mutation.resolution Resolution.City).apply q) ∧
    Json.getPath (Json.obj [("requestOptions", Json.obj [("property", Json.str "news")]),
        ("resolution", Json.str "CITY")]) ["resolution"] = some (Json.str "CITY") ∧
    Json.getPath (Json.obj [("requestOptions", Json.obj [("property", Json.str "news")]),
        ("resolution", Json.str "CITY")]) ["requestOptions", "property"] =
      some (Json.str "news") :=
  ⟨mutation_order_insensitive.1 (Mutation.resolution Resolution.City)
      (Mutation.lowVolume true) (Json.obj []) (by decide),
   (mutation_order_insensitive.2 (Json.obj []) (Json.obj [("resolution", Json.str "CITY")])
      (Json.obj [("requestOptions", Json.obj [("property", Json.str "news")]),
        ("resolution", Json.str "CITY")]) rfl rfl).1,
   (mutation_order_insensitive.2 (Json.obj []) (Json.obj [("resolution", Json.str "CITY")])
      (Json.obj [("requestOptions", Json.obj [("property", Json.str "news")]),
        ("resolution", Json.str "CITY")]) rfl rfl).2⟩

/-- Claim C8: the full serialization table — every Resolution value serializes to its
fixed uppercase token, every Source value to its fixed lowercase token (the plain web
vertical to the empty string), and every Category value to its stable numeric code. -/
theorem enum_serialization_table :
    Resolution.serialize Resolution.Country = "COUNTRY" ∧
    Resolution.serialize Resolution.City = "CITY" ∧
    Resolution.serialize Resolution.Dma = "DMA" ∧
    Source.serialize Source.Search = "" ∧
    Source.serialize Source.Images = "images" ∧
    Source.serialize Source.News = "news" ∧
    Source.serialize Source.Videos = "youtube" ∧
    Source.serialize Source.Shopping = "froogle" ∧
    Category.code Category.All = 0 ∧
    Category.code Category.Entertainment = 3 ∧
    Category.code Category.Electronics = 5 ∧
    Category.code Category.Finance = 7 ∧
    Category.code Category.Games = 8 ∧
    Category.code Category.Home = 11 ∧
    Category.code Category.Business = 12 ∧
    Category.code Category.Internet = 13 ∧
    Category.code Category.Society = 14 ∧
    Category.code Category.News = 16 ∧
    Category.code Category.Shopping = 18 ∧
    Category.code Category.Law = 19 ∧
    Category.code Category.Sports = 20 ∧
    Category.code Category.Literature = 22 ∧
    Category.code Category.RealEstate = 29 ∧
    Category.code Category.Fitness = 44 ∧
    Category.code Category.Health = 45 ∧
    Category.code Category.Vehicles = 47 ∧
    Category.code Category.Hobbies = 65 ∧
    Category.code Category.Pets = 66 ∧
    Category.code Category.Travel = 67 ∧
    Category.code Category.Food = 71 ∧
    Category.code Category.Science = 174 ∧
    Category.code Category.Communities = 299 ∧
    Category.code Category.Reference = 533 ∧
    Category.code Category.Education = 958 := by
  decide

/-- Claim C9: a time window built from two dates formats as the start date, one space,
and the end date; dates render in YYYY-MM-DD form (for in-range components, exactly 10
characters); the default window starts at the fixed epoch 2014-01-01 and ends at the
current date at call time (the clock is an explicit parameter of the model). -/
theorem timeframe_formatting (s e today : Date) :
    (Timeframe.new s e).formatted = s.fmt ++ " " ++ e.fmt ∧
    Timeframe.default today = Timeframe.mk (Date.mk 2014 1 1) today ∧
    (s.year ≤ 9999 → s.month ≤ 99 → s.day ≤ 99 → (Date.fmt s).length = 10) := by
  refine ⟨rfl, rfl, fun hy hm hd => ?_⟩
  unfold Date.fmt pad4 pad2
  rw [if_pos (by omega), if_pos (by omega), if_pos (by omega)]
  have hmk : ∀ (l : List Char), (String.mk l).length = l.length := fun _ => rfl
  have hdash : ("-" : String).length = 1 := rfl
  simp [String.length_append, hmk, hdash]

/-- Witness for C9 at concrete dates (including the rendered string itself). -/
theorem timeframe_formatting_witness :
    (Timeframe.new (Date.mk 2021 3 5) (Date.mk 2022 11 30)).formatted =
      "2021-03-05 2022-11-30" ∧
    (Date.fmt (Date.mk 2021 3 5)).length = 10 :=
  ⟨by
    rw [(timeframe_formatting (Date.mk 2021 3 5) (Date.mk 2022 11 30) (Date.mk 2022 1 1)).1]
    rfl,
   (timeframe_formatting (Date.mk 2021 3 5) (Date.mk 2022 11 30) (Date.mk 2022 1 1)).2.2
     (by decide) (by decide) (by decide)⟩

/-- Claim C10: response decoding yields a result exactly when the body has a prefix of
the right byte length (5 for widget-fetch, 4 for explore) ending on a character
boundary; for any shorter body, or one whose cut falls inside a multi-byte character,
the unchecked byte slice panics (no result at all) instead of returning a decode
error. -/
theorem decode_totality (body : List Char) :
    ((decodeFetchBody body).isSome ↔ ∃ pre rest, body = pre ++ rest ∧ utf8Len pre = 5) ∧
    ((decodeExploreBody body).isSome ↔ ∃ pre rest, body = pre ++ rest ∧ utf8Len pre = 4) := by
  constructor
  · rw [decodeFetchBody_isSome]
    constructor
    · intro h
      obtain ⟨rest, hr⟩ := Option.isSome_iff_exists.mp h
      obtain ⟨pre, heq, hlen⟩ := byteDrop_some body rest 5 hr
      exact ⟨pre, rest, heq, hlen⟩
    · rintro ⟨pre, rest, rfl, hlen⟩
      rw [← hlen, byteDrop_append]
      rfl
  · rw [decodeExploreBody_isSome]
    constructor
    · intro h
      obtain ⟨rest, hr⟩ := Option.isSome_iff_exists.mp h
      obtain ⟨pre, heq, hlen⟩ := byteDrop_some body rest 4 hr
      exact ⟨pre, rest, heq, hlen⟩
    · rintro ⟨pre, rest, rfl, hlen⟩
      rw [← hlen, byteDrop_append]
      rfl

end GoogleTrends
